import Mathlib

/-!
# nomad-quay-deployer: the webhook handler and the image-update worker

A shallow embedding of `main.go`:

* the anonymous `http.HandlerFunc` of `main` (lines 90-115) is `handler`;
* `processBuildNotification` (lines 119-160) is `processBuildNotification`,
  with the body of its `for _, jobStub := range jobs` loop named `processJob`
  and the nested task-group / task loops named `scanJob`, `scanTaskGroups`,
  `scanTasks` and `scanTask`.

Modelling conventions.

* Go strings are Lean `String`s.  `strings.HasPrefix` compares bytes; on the
  valid UTF-8 that `encoding/json` produces this is the same as comparing
  code points, which is what `HasPrefix` below does.
* `task.Config` is a `map[string]interface{}`; it is an association list,
  read with `mapGet` and written with `mapSet`.  A dynamic value is either a
  string or something else (kept as its JSON text).
* The Nomad client is a record of response functions (`NomadAPI`); the calls
  the worker makes are recorded, in order, in `Run.calls`.
* A Go run-time panic (failed type assertion, index out of range) is an explicit
  outcome: `Except Panic _` for the scan, `Run.panic` for the worker.
* The channel `ch` (`make(chan BuildSucceededNotification, 5)`, line 84) is the
  list of the notifications in its buffer, oldest first.  A send on a full buffer
  blocks: the handler then has no outcome in that state (`none`), and has one as
  soon as the worker has taken a notification out.
* Calls to the logger do not influence control flow and are not recorded.
-/

set_option autoImplicit false

namespace NomadQuayDeployer

/-! ## Data model -/

/-- A value of Go type `interface{}` stored in a task configuration. -/
inductive Value where
  /-- A value of dynamic type `string`. -/
  | str (s : String)
  /-- A value of any other dynamic type (number, bool, list, map, nil), as JSON text. -/
  | nonString (json : String)
  deriving DecidableEq, Repr

/-- A `map[string]interface{}`. -/
abbrev Config := List (String × Value)

/-- The map read `v, ok := m[k]`: `none` is `ok == false`. -/
def mapGet : Config → String → Option Value
  | [], _ => none
  | (k', v) :: rest, k => if k' = k then some v else mapGet rest k

/-- The map write `m[k] = v`: overwrites the entry of `k`, or adds one. -/
def mapSet : Config → String → Value → Config
  | [], k, v => [(k, v)]
  | (k', v') :: rest, k, v => if k' = k then (k, v) :: rest else (k', v') :: mapSet rest k v

/-- The Nomad `api.Task`, with the fields the worker reads. -/
structure Task where
  Name : String
  Config : Config
  deriving DecidableEq, Repr

/-- The Nomad `api.TaskGroup`. -/
structure TaskGroup where
  Name : String
  Tasks : List Task
  deriving DecidableEq, Repr

/-- The Nomad `api.Job`. -/
structure Job where
  ID : String
  TaskGroups : List TaskGroup
  deriving DecidableEq, Repr

/-- The Nomad `api.JobListStub`, one entry of the job listing (`Type_` is its field `Type`). -/
structure JobListStub where
  ID : String
  Type_ : String
  deriving DecidableEq, Repr

/-- The constant `nomadAPI.JobTypeService`. -/
def JobTypeService : String := "service"

/-- The `author` / `committer` record of a notification. -/
structure CommitUser where
  Username : String
  URL : String
  AvatarURL : String
  deriving DecidableEq, Repr

/-- The `commit_info` record of a notification. -/
structure CommitInfo where
  URL : String
  Message : String
  Date : Int
  Author : CommitUser
  Committer : CommitUser
  deriving DecidableEq, Repr

/-- The `trigger_metadata` record of a notification. -/
structure TriggerMetadata where
  DefaultBranch : String
  Ref : String
  Commit : String
  CommitInfo : CommitInfo
  deriving DecidableEq, Repr

/-- The struct `BuildSucceededNotification` (lines 23-54). -/
structure BuildSucceededNotification where
  Repository : String
  Namespace : String
  Name : String
  DockerURL : String
  Homepage : String
  Visibility : String
  BuildID : String
  DockerTags : List String
  TriggerKind : String
  TriggerID : String
  TriggerMetadata : TriggerMetadata
  deriving DecidableEq, Repr

/-- The Go zero value `BuildSucceededNotification{}` (line 109). -/
def zeroNotification : BuildSucceededNotification :=
  { Repository := "", Namespace := "", Name := "", DockerURL := "", Homepage := "",
    Visibility := "", BuildID := "", DockerTags := [], TriggerKind := "", TriggerID := "",
    TriggerMetadata :=
      { DefaultBranch := "", Ref := "", Commit := "",
        CommitInfo :=
          { URL := "", Message := "", Date := 0,
            Author := { Username := "", URL := "", AvatarURL := "" },
            Committer := { Username := "", URL := "", AvatarURL := "" } } } }

/-! ## Library functions used by the worker -/

/-- The Go `strings.HasPrefix(s, prefix)`:
`len(s) >= len(prefix) && s[:len(prefix)] == prefix`. -/
def HasPrefix (s pre : String) : Bool :=
  decide (pre.data.length ≤ s.data.length) && (s.data.take pre.data.length == pre.data)

/-- The call `fmt.Sprintf("%s:%s", a, b)` (line 140). -/
def Sprintf (a b : String) : String := a ++ ":" ++ b

/-! ## The scan of one job (lines 134-145) -/

/-- A Go run-time panic the worker can raise. -/
inductive Panic where
  /-- `image.(string)` on a value whose dynamic type is not `string` (line 138). -/
  | typeAssertion
  /-- `notification.DockerTags[0]` on an empty slice (line 140). -/
  | indexOutOfRange
  deriving DecidableEq, Repr

deriving instance DecidableEq for Except

/-- The body of `for _, task := range taskGroup.Tasks` (lines 137-143): the task
after the iteration and the new value of `dirty`. -/
def scanTask (notification : BuildSucceededNotification) (task : Task) (dirty : Bool) :
    Except Panic (Task × Bool) :=
  match mapGet task.Config "image" with
  | some image =>
    match image with
    | Value.str s =>
      if HasPrefix s notification.DockerURL then
        match notification.DockerTags with
        | tag0 :: _ =>
          Except.ok
            ({ task with
                Config := mapSet task.Config "image"
                  (Value.str (Sprintf notification.DockerURL tag0)) }, true)
        | [] => Except.error Panic.indexOutOfRange
      else Except.ok (task, dirty)
    | Value.nonString _ => Except.error Panic.typeAssertion
  | none => Except.ok (task, dirty)

/-- The loop `for _, task := range taskGroup.Tasks` (line 136). -/
def scanTasks (notification : BuildSucceededNotification) :
    List Task → Bool → Except Panic (List Task × Bool)
  | [], dirty => Except.ok ([], dirty)
  | task :: rest, dirty =>
    match scanTask notification task dirty with
    | Except.error p => Except.error p
    | Except.ok (task', dirty') =>
      match scanTasks notification rest dirty' with
      | Except.error p => Except.error p
      | Except.ok (rest', dirty'') => Except.ok (task' :: rest', dirty'')

/-- The loop `for _, taskGroup := range job.TaskGroups` (line 135). -/
def scanTaskGroups (notification : BuildSucceededNotification) :
    List TaskGroup → Bool → Except Panic (List TaskGroup × Bool)
  | [], dirty => Except.ok ([], dirty)
  | taskGroup :: rest, dirty =>
    match scanTasks notification taskGroup.Tasks dirty with
    | Except.error p => Except.error p
    | Except.ok (tasks', dirty') =>
      match scanTaskGroups notification rest dirty' with
      | Except.error p => Except.error p
      | Except.ok (rest', dirty'') =>
        Except.ok ({ taskGroup with Tasks := tasks' } :: rest', dirty'')

/-- Lines 134-145: `dirty := false` followed by the two nested loops.  The
result is the job as it stands after the in-place writes, and `dirty`. -/
def scanJob (notification : BuildSucceededNotification) (job : Job) :
    Except Panic (Job × Bool) :=
  match scanTaskGroups notification job.TaskGroups false with
  | Except.error p => Except.error p
  | Except.ok (taskGroups', dirty) => Except.ok ({ job with TaskGroups := taskGroups' }, dirty)

/-! ## The worker (lines 119-160) -/

/-- The responses of the Nomad API, one per request. -/
structure NomadAPI where
  /-- The call `api.Jobs().List(&QueryOptions{AllowStale: false})`. -/
  List : Except String (List JobListStub)
  /-- The call `api.Jobs().Info(id, nil)`. -/
  Info : String → Except String Job
  /-- The call `api.Jobs().Plan(job, false, nil)`. -/
  Plan : Job → Except String Unit
  /-- The call `api.Jobs().Register(job, nil)`. -/
  Register : Job → Except String Unit

/-- A request the worker sends to Nomad. -/
inductive Call where
  | List
  | Info (id : String)
  | Plan (job : Job)
  | Register (job : Job)
  deriving DecidableEq, Repr

/-- What a run of the worker did: the requests it sent, in order, and the panic
that ended it (`none` when it returned normally). -/
structure Run where
  calls : List Call
  panic : Option Panic
  deriving DecidableEq, Repr

/-- The body of `for _, jobStub := range jobs` (lines 126-158). -/
def processJob (api : NomadAPI) (notification : BuildSucceededNotification)
    (jobStub : JobListStub) : Run :=
  if jobStub.Type_ ≠ JobTypeService then
    { calls := [], panic := none }
  else
    match api.Info jobStub.ID with
    | Except.error _ => { calls := [Call.Info jobStub.ID], panic := none }
    | Except.ok job =>
      match scanJob notification job with
      | Except.error p => { calls := [Call.Info jobStub.ID], panic := some p }
      | Except.ok (job', dirty) =>
        if dirty then
          match api.Plan job' with
          | Except.error _ =>
            { calls := [Call.Info jobStub.ID, Call.Plan job'], panic := none }
          | Except.ok _ =>
            match api.Register job' with
            | Except.error _ =>
              { calls := [Call.Info jobStub.ID, Call.Plan job', Call.Register job'],
                panic := none }
            | Except.ok _ =>
              { calls := [Call.Info jobStub.ID, Call.Plan job', Call.Register job'],
                panic := none }
        else
          { calls := [Call.Info jobStub.ID], panic := none }

/-- The loop `for _, jobStub := range jobs` (line 125): a panic ends the run. -/
def processJobs (api : NomadAPI) (notification : BuildSucceededNotification) :
    List JobListStub → Run
  | [] => { calls := [], panic := none }
  | jobStub :: rest =>
    match processJob api notification jobStub with
    | { calls := c, panic := some p } => { calls := c, panic := some p }
    | { calls := c, panic := none } =>
      { calls := c ++ (processJobs api notification rest).calls,
        panic := (processJobs api notification rest).panic }

/-- The function `processBuildNotification` (lines 119-160). -/
def processBuildNotification (api : NomadAPI) (notification : BuildSucceededNotification) :
    Run :=
  match api.List with
  | Except.error _ => { calls := [Call.List], panic := none }
  | Except.ok jobs =>
    { calls := Call.List :: (processJobs api notification jobs).calls,
      panic := (processJobs api notification jobs).panic }

/-! ## The HTTP handler (lines 90-115) -/

/-- The parts of an `http.Request` the handler reads. -/
structure Request where
  Method : String
  Body : String
  deriving DecidableEq, Repr

/-- The constant `http.MethodGet`. -/
def MethodGet : String := "GET"

/-- The constant `http.MethodPost`. -/
def MethodPost : String := "POST"

/-- The constant `http.StatusMethodNotAllowed`. -/
def StatusMethodNotAllowed : Nat := 405

/-- The constant `http.StatusOK`, the status `net/http` sends when the handler
returns without a call to `WriteHeader`. -/
def StatusOK : Nat := 200

/-- The capacity of the channel `ch` (line 84). -/
def chCapacity : Nat := 5

/-- The send `ch <- v` (line 114) on the channel whose buffer holds `buffer`: the
buffer after the send, or `none` when the buffer is full and the send blocks. -/
def chSend (buffer : List BuildSucceededNotification) (v : BuildSucceededNotification) :
    Option (List BuildSucceededNotification) :=
  if buffer.length < chCapacity then some (buffer ++ [v]) else none

/-- What a run of the handler that returned did: the explicit `WriteHeader` call
(if any), the headers it set, and the buffer of the channel `ch` as it left it. -/
structure Handled where
  wroteHeader : Option Nat
  headers : List (String × String)
  ch : List BuildSucceededNotification
  deriving DecidableEq, Repr

/-- The status line the client receives. -/
def Handled.status (h : Handled) : Nat := h.wroteHeader.getD StatusOK

/-- The handler (lines 99-114), run on the channel buffer `ch`.  `decode body` is
the outcome of `json.NewDecoder(r.Body).Decode(&notification)`: the struct as the
decoder left it, and whether it returned an error.  The result is `none` when the
handler is blocked in the send of line 114: it has not returned, no status has been
sent and the buffer is as it was. -/
def handler (decode : String → BuildSucceededNotification × Bool)
    (ch : List BuildSucceededNotification) (r : Request) : Option Handled :=
  if r.Method = MethodGet then
    some { wroteHeader := some 200, headers := [], ch := ch }
  else if r.Method ≠ MethodPost then
    some { wroteHeader := some StatusMethodNotAllowed, headers := [], ch := ch }
  else
    let notification := (decode r.Body).1
    match chSend ch notification with
    | some ch' =>
      some
        { wroteHeader := none,
          headers :=
            [("Content-Type", "application/json"), ("Access-Control-Allow-Origin", "*")],
          ch := ch' }
    | none => none

/-! ## Predicates used to state the properties -/

/-- The test of lines 137-138 on one task: it has an `"image"` entry, a string,
with the notification's `DockerURL` as a prefix. -/
def imageMatches (notification : BuildSucceededNotification) (task : Task) : Bool :=
  match mapGet task.Config "image" with
  | some (Value.str s) => HasPrefix s notification.DockerURL
  | _ => false

/-- The task has no `"image"` entry, or a string one. -/
def imageIsString (task : Task) : Bool :=
  match mapGet task.Config "image" with
  | some (Value.nonString _) => false
  | _ => true

/-- Every `"image"` entry of the job is a string. -/
def allImagesStrings (job : Job) : Bool :=
  job.TaskGroups.all fun taskGroup => taskGroup.Tasks.all imageIsString

/-- Some task of the job passes the test of lines 137-138. -/
def anyImageMatches (notification : BuildSucceededNotification) (job : Job) : Bool :=
  job.TaskGroups.any fun taskGroup => taskGroup.Tasks.any (imageMatches notification)

/-- The rewrite as the specification words it, on one task: a matching task has
its image set to `<dockerURL>:<tag>`, any other task is returned as it is. -/
def rewriteTaskSpec (notification : BuildSucceededNotification) (tag : String) (task : Task) :
    Task :=
  if imageMatches notification task then
    { task with
        Config := mapSet task.Config "image" (Value.str (notification.DockerURL ++ ":" ++ tag)) }
  else task

/-- The rewrite as the specification words it, on a whole job. -/
def rewriteJobSpec (notification : BuildSucceededNotification) (tag : String) (job : Job) : Job :=
  { job with
      TaskGroups := job.TaskGroups.map fun taskGroup =>
        { taskGroup with Tasks := taskGroup.Tasks.map (rewriteTaskSpec notification tag) } }

/-- The relation between a task before and after the scan: the name is kept; a
matching task ends with the image `<dockerURL>:<tag>` and every other key as it
was; a task that does not match is unchanged. -/
def TaskRewritten (notification : BuildSucceededNotification) (tag : String)
    (task task' : Task) : Prop :=
  task'.Name = task.Name ∧
  (imageMatches notification task = true →
    mapGet task'.Config "image" = some (Value.str (notification.DockerURL ++ ":" ++ tag)) ∧
    ∀ k, k ≠ "image" → mapGet task'.Config k = mapGet task.Config k) ∧
  (imageMatches notification task = false → task' = task)

/-- The relation between a job before and after the scan: same ID, same task
groups with the same names, and task by task `TaskRewritten`. -/
def JobRewritten (notification : BuildSucceededNotification) (tag : String)
    (job job' : Job) : Prop :=
  job'.ID = job.ID ∧
  List.Forall₂
    (fun taskGroup taskGroup' : TaskGroup =>
      taskGroup'.Name = taskGroup.Name ∧
      List.Forall₂ (TaskRewritten notification tag) taskGroup.Tasks taskGroup'.Tasks)
    job.TaskGroups job'.TaskGroups

/-- The definition the worker fetches for a listing entry has only string images
(no definition is fetched for an entry that is not a service, or when `Info`
fails). -/
def fetchedImagesAreStrings (api : NomadAPI) (jobStub : JobListStub) : Bool :=
  if jobStub.Type_ ≠ JobTypeService then true
  else
    match api.Info jobStub.ID with
    | Except.ok job => allImagesStrings job
    | Except.error _ => true

/-- The API `api` with the job listing replaced by `jobs`. -/
def withListing (api : NomadAPI) (jobs : List JobListStub) : NomadAPI :=
  { api with List := Except.ok jobs }

/-- Whether a call is a `Plan` request. -/
def Call.isPlan : Call → Bool
  | Call.Plan _ => true
  | _ => false

/-- Whether a call is a `Register` request. -/
def Call.isRegister : Call → Bool
  | Call.Register _ => true
  | _ => false

/-- The number of `Plan` requests of a run. -/
def Run.planCalls (r : Run) : Nat := (r.calls.filter Call.isPlan).length

/-- The number of `Register` requests of a run. -/
def Run.registerCalls (r : Run) : Nat := (r.calls.filter Call.isRegister).length

/-! ## Concrete inputs -/

/-- The notification of the specification's scenarios. -/
def exampleNotification : BuildSucceededNotification :=
  { zeroNotification with DockerURL := "registry/app", DockerTags := ["v42", "v41"] }

/-- A job with a task of the notification's repository and a task of another one. -/
def exampleJob : Job :=
  { ID := "web",
    TaskGroups :=
      [{ Name := "frontend",
         Tasks :=
           [{ Name := "app", Config := [("port", Value.nonString "80"),
                                        ("image", Value.str "registry/app:v40")] },
            { Name := "sidecar", Config := [("image", Value.str "registry/other-app:v1")] },
            { Name := "raw", Config := [] }] }] }

/-- The job `exampleJob` after the scan for `exampleNotification`. -/
def exampleJobUpdated : Job :=
  { ID := "web",
    TaskGroups :=
      [{ Name := "frontend",
         Tasks :=
           [{ Name := "app", Config := [("port", Value.nonString "80"),
                                        ("image", Value.str "registry/app:v42")] },
            { Name := "sidecar", Config := [("image", Value.str "registry/other-app:v1")] },
            { Name := "raw", Config := [] }] }] }

/-- The job `exampleJob` needs no update for a notification of another repository. -/
def otherJob : Job :=
  { ID := "other",
    TaskGroups :=
      [{ Name := "main",
         Tasks := [{ Name := "app", Config := [("image", Value.str "registry/other-app:v1")] }] }] }

/-- A job with a matching task followed by a task whose image is not a string. -/
def brokenJob : Job :=
  { ID := "broken",
    TaskGroups :=
      [{ Name := "main",
         Tasks :=
           [{ Name := "app", Config := [("image", Value.str "registry/app:v40")] },
            { Name := "odd", Config := [("image", Value.nonString "7")] }] }] }

/-- A notification with a docker URL and no tag, as decoded from a body that
gives `docker_url` and no `docker_tags`. -/
def noTagsNotification : BuildSucceededNotification :=
  { zeroNotification with DockerURL := "registry/app" }

/-- A job listing, in the order of the IDs: a batch job, a service job that Nomad
no longer knows, and two service jobs. -/
def exampleStubs : List JobListStub :=
  [{ ID := "cron", Type_ := "batch" }, { ID := "gone", Type_ := "service" },
   { ID := "other", Type_ := "service" }, { ID := "web", Type_ := "service" }]

/-- A Nomad that serves `exampleStubs`, knows the jobs above (the batch job
`cron` has the definition of `exampleJob`) and accepts every plan and registration. -/
def exampleAPI : NomadAPI :=
  { List := Except.ok exampleStubs,
    Info := fun id =>
      if id = "web" then Except.ok exampleJob
      else if id = "cron" then Except.ok exampleJob
      else if id = "other" then Except.ok otherJob
      else if id = "broken" then Except.ok brokenJob
      else Except.error "job not found",
    Plan := fun _ => Except.ok (),
    Register := fun _ => Except.ok () }

/-- The same Nomad, refusing every plan. -/
def planFailsAPI : NomadAPI :=
  { exampleAPI with Plan := fun _ => Except.error "plan refused" }

/-- The same Nomad, failing to list its jobs. -/
def listFailsAPI : NomadAPI :=
  { exampleAPI with List := Except.error "connection refused" }

/-- A decoder that fails on every body and leaves the struct zero-valued. -/
def failingDecode : String → BuildSucceededNotification × Bool :=
  fun _ => (zeroNotification, true)

/-- A decoder that succeeds on every body with `exampleNotification`. -/
def succeedingDecode : String → BuildSucceededNotification × Bool :=
  fun _ => (exampleNotification, false)

/-- The buffer of `ch` when five notifications wait for the worker. -/
def fullBuffer : List BuildSucceededNotification := List.replicate 5 exampleNotification

/-! ## Lemmas on the library functions and the map -/

theorem hasPrefix_iff (s pre : String) : HasPrefix s pre = true ↔ pre.data <+: s.data := by
  unfold HasPrefix
  simp only [Bool.and_eq_true, decide_eq_true_eq, beq_iff_eq]
  constructor
  · rintro ⟨_, h⟩
    rw [← h]
    exact List.take_prefix _ _
  · intro h
    exact ⟨h.length_le, List.prefix_iff_eq_take.mp h |>.symm⟩

theorem hasPrefix_append (a b : String) : HasPrefix (a ++ b) a = true := by
  rw [hasPrefix_iff, String.data_append]
  exact List.prefix_append _ _

theorem mapGet_mapSet_same (c : Config) (k : String) (v : Value) :
    mapGet (mapSet c k v) k = some v := by
  induction c with
  | nil => simp [mapSet, mapGet]
  | cons kv rest ih =>
    obtain ⟨k', v'⟩ := kv
    by_cases h : k' = k
    · simp [mapSet, mapGet, h]
    · simp [mapSet, mapGet, h, ih]

theorem mapGet_mapSet_other (c : Config) (k k' : String) (v : Value) (h : k' ≠ k) :
    mapGet (mapSet c k v) k' = mapGet c k' := by
  induction c with
  | nil => simp [mapSet, mapGet, Ne.symm h]
  | cons kv rest ih =>
    obtain ⟨k₁, v₁⟩ := kv
    by_cases h₁ : k₁ = k
    · subst h₁
      simp [mapSet, mapGet, Ne.symm h]
    · simp only [mapSet, h₁, if_false, mapGet, ih]

theorem mapSet_mapSet (c : Config) (k : String) (v : Value) :
    mapSet (mapSet c k v) k v = mapSet c k v := by
  induction c with
  | nil => simp [mapSet]
  | cons kv rest ih =>
    obtain ⟨k', v'⟩ := kv
    by_cases h : k' = k
    · simp [mapSet, h]
    · simp [mapSet, h, ih]

/-! ## The scan computes the specified rewrite -/

theorem scanTask_eq (n : BuildSucceededNotification) (tag : String) (rest : List String)
    (htags : n.DockerTags = tag :: rest) (task : Task) (dirty : Bool)
    (hstr : imageIsString task = true) :
    scanTask n task dirty
      = Except.ok (rewriteTaskSpec n tag task, dirty || imageMatches n task) := by
  unfold scanTask rewriteTaskSpec imageMatches
  unfold imageIsString at hstr
  cases hg : mapGet task.Config "image" with
  | none => simp
  | some v =>
    cases v with
    | nonString j => simp [hg] at hstr
    | str s =>
      by_cases hp : HasPrefix s n.DockerURL = true
      · simp [hp, htags, Sprintf]
      · simp [hp]

theorem scanTasks_eq (n : BuildSucceededNotification) (tag : String) (rest : List String)
    (htags : n.DockerTags = tag :: rest) (tasks : List Task) (dirty : Bool)
    (hstr : tasks.all imageIsString = true) :
    scanTasks n tasks dirty
      = Except.ok (tasks.map (rewriteTaskSpec n tag), dirty || tasks.any (imageMatches n)) := by
  induction tasks generalizing dirty with
  | nil => simp [scanTasks]
  | cons t ts ih =>
    simp only [List.all_cons, Bool.and_eq_true] at hstr
    simp [scanTasks, scanTask_eq n tag rest htags t dirty hstr.1, ih _ hstr.2, Bool.or_assoc]

theorem scanTaskGroups_eq (n : BuildSucceededNotification) (tag : String) (rest : List String)
    (htags : n.DockerTags = tag :: rest) (groups : List TaskGroup) (dirty : Bool)
    (hstr : (groups.all fun g => g.Tasks.all imageIsString) = true) :
    scanTaskGroups n groups dirty
      = Except.ok
          (groups.map fun g => { g with Tasks := g.Tasks.map (rewriteTaskSpec n tag) },
           dirty || groups.any fun g => g.Tasks.any (imageMatches n)) := by
  induction groups generalizing dirty with
  | nil => simp [scanTaskGroups]
  | cons g gs ih =>
    simp only [List.all_cons, Bool.and_eq_true] at hstr
    simp [scanTaskGroups, scanTasks_eq n tag rest htags g.Tasks dirty hstr.1, ih _ hstr.2,
      Bool.or_assoc]

theorem scanJob_eq (n : BuildSucceededNotification) (tag : String) (rest : List String)
    (htags : n.DockerTags = tag :: rest) (job : Job) (hstr : allImagesStrings job = true) :
    scanJob n job = Except.ok (rewriteJobSpec n tag job, anyImageMatches n job) := by
  unfold scanJob
  rw [scanTaskGroups_eq n tag rest htags job.TaskGroups false hstr]
  simp [rewriteJobSpec, anyImageMatches]

/-! ## The specified rewrite, task by task -/

theorem taskRewritten_rewriteTaskSpec (n : BuildSucceededNotification) (tag : String)
    (task : Task) : TaskRewritten n tag task (rewriteTaskSpec n tag task) := by
  unfold TaskRewritten rewriteTaskSpec
  by_cases h : imageMatches n task = true
  · simp only [h, if_true, true_implies]
    refine ⟨trivial, ⟨mapGet_mapSet_same _ _ _, fun k hk => mapGet_mapSet_other _ _ _ _ hk⟩, ?_⟩
    intro hf
    cases hf
  · simp [h]

theorem forall₂_map_right_of {α : Type} (R : α → α → Prop) (f : α → α) (h : ∀ a, R a (f a))
    (l : List α) : List.Forall₂ R l (l.map f) := by
  induction l with
  | nil => exact List.Forall₂.nil
  | cons a l ih => exact List.Forall₂.cons (h a) ih

theorem jobRewritten_rewriteJobSpec (n : BuildSucceededNotification) (tag : String)
    (job : Job) : JobRewritten n tag job (rewriteJobSpec n tag job) := by
  refine ⟨rfl, ?_⟩
  unfold rewriteJobSpec
  apply forall₂_map_right_of
  intro g
  exact ⟨rfl, forall₂_map_right_of _ _ (taskRewritten_rewriteTaskSpec n tag) _⟩

theorem anyImageMatches_iff (n : BuildSucceededNotification) (job : Job) :
    anyImageMatches n job = true
      ↔ ∃ g ∈ job.TaskGroups, ∃ t ∈ g.Tasks, imageMatches n t = true := by
  simp [anyImageMatches]

/-! ## Scanning a rewritten job -/

theorem imageMatches_rewriteTaskSpec (n : BuildSucceededNotification) (tag : String)
    (task : Task) : imageMatches n (rewriteTaskSpec n tag task) = imageMatches n task := by
  by_cases h : imageMatches n task = true
  · rw [h]
    simp only [rewriteTaskSpec, h, if_true]
    simp only [imageMatches, mapGet_mapSet_same]
    rw [String.append_assoc]
    exact hasPrefix_append _ _
  · simp [rewriteTaskSpec, h]

theorem imageIsString_rewriteTaskSpec (n : BuildSucceededNotification) (tag : String)
    (task : Task) (hstr : imageIsString task = true) :
    imageIsString (rewriteTaskSpec n tag task) = true := by
  by_cases h : imageMatches n task = true
  · simp only [rewriteTaskSpec, h, if_true]
    simp only [imageIsString, mapGet_mapSet_same]
  · simpa [rewriteTaskSpec, h] using hstr

theorem rewriteTaskSpec_pos (n : BuildSucceededNotification) (tag : String) (task : Task)
    (h : imageMatches n task = true) :
    rewriteTaskSpec n tag task
      = { task with
            Config := mapSet task.Config "image" (Value.str (n.DockerURL ++ ":" ++ tag)) } := by
  simp [rewriteTaskSpec, h]

theorem rewriteTaskSpec_neg (n : BuildSucceededNotification) (tag : String) (task : Task)
    (h : ¬ imageMatches n task = true) : rewriteTaskSpec n tag task = task := by
  simp [rewriteTaskSpec, h]

theorem rewriteTaskSpec_idem (n : BuildSucceededNotification) (tag : String) (task : Task) :
    rewriteTaskSpec n tag (rewriteTaskSpec n tag task) = rewriteTaskSpec n tag task := by
  have hm := imageMatches_rewriteTaskSpec n tag task
  by_cases h : imageMatches n task = true
  · rw [rewriteTaskSpec_pos n tag (rewriteTaskSpec n tag task) (hm.trans h),
      rewriteTaskSpec_pos n tag task h]
    simp [mapSet_mapSet]
  · rw [rewriteTaskSpec_neg n tag (rewriteTaskSpec n tag task) (by rw [hm]; exact h)]

theorem rewriteJobSpec_idem (n : BuildSucceededNotification) (tag : String) (job : Job) :
    rewriteJobSpec n tag (rewriteJobSpec n tag job) = rewriteJobSpec n tag job := by
  simp [rewriteJobSpec, rewriteTaskSpec_idem, Function.comp_def]

theorem allImagesStrings_rewriteJobSpec (n : BuildSucceededNotification) (tag : String)
    (job : Job) (hstr : allImagesStrings job = true) :
    allImagesStrings (rewriteJobSpec n tag job) = true := by
  simp only [allImagesStrings, List.all_eq_true] at hstr
  simp only [allImagesStrings, rewriteJobSpec, List.all_map, List.all_eq_true,
    Function.comp_def]
  intro g hg t ht
  exact imageIsString_rewriteTaskSpec n tag t (hstr g hg t ht)

theorem anyImageMatches_rewriteJobSpec (n : BuildSucceededNotification) (tag : String)
    (job : Job) : anyImageMatches n (rewriteJobSpec n tag job) = anyImageMatches n job := by
  simp [anyImageMatches, rewriteJobSpec, List.any_map, Function.comp_def,
    imageMatches_rewriteTaskSpec]

/-! ## The scan without the hypotheses -/

theorem scanTasks_no_match (n : BuildSucceededNotification) (tasks tasks' : List Task)
    (dirty dirty' : Bool) (h : scanTasks n tasks dirty = Except.ok (tasks', dirty'))
    (hno : tasks.any (imageMatches n) = false) : dirty' = dirty := by
  induction tasks generalizing dirty tasks' dirty' with
  | nil =>
    simp only [scanTasks, Except.ok.injEq, Prod.mk.injEq] at h
    exact h.2.symm
  | cons t ts ih =>
    simp only [List.any_cons, Bool.or_eq_false_iff] at hno
    simp only [scanTasks] at h
    cases h₁ : scanTask n t dirty with
    | error p => simp [h₁] at h
    | ok r =>
      obtain ⟨t', d₁⟩ := r
      simp only [h₁] at h
      have hd : d₁ = dirty := by
        unfold scanTask at h₁
        have hm := hno.1
        unfold imageMatches at hm
        cases hg : mapGet t.Config "image" with
        | none =>
          simp only [hg, Except.ok.injEq, Prod.mk.injEq] at h₁
          exact h₁.2.symm
        | some v =>
          cases v with
          | nonString j => simp [hg] at h₁
          | str s =>
            simp only [hg] at hm
            simp only [hg, hm, Bool.false_eq_true, if_false, Except.ok.injEq,
              Prod.mk.injEq] at h₁
            exact h₁.2.symm
      cases h₂ : scanTasks n ts d₁ with
      | error p => simp [h₂] at h
      | ok r₂ =>
        obtain ⟨ts', d₂⟩ := r₂
        simp only [h₂, Except.ok.injEq, Prod.mk.injEq] at h
        rw [← h.2, ih ts' d₁ d₂ h₂ hno.2, hd]

theorem scanTaskGroups_no_match (n : BuildSucceededNotification) (groups groups' : List TaskGroup)
    (dirty dirty' : Bool) (h : scanTaskGroups n groups dirty = Except.ok (groups', dirty'))
    (hno : (groups.any fun g => g.Tasks.any (imageMatches n)) = false) : dirty' = dirty := by
  induction groups generalizing dirty groups' dirty' with
  | nil =>
    simp only [scanTaskGroups, Except.ok.injEq, Prod.mk.injEq] at h
    exact h.2.symm
  | cons g gs ih =>
    simp only [List.any_cons, Bool.or_eq_false_iff] at hno
    simp only [scanTaskGroups] at h
    cases h₁ : scanTasks n g.Tasks dirty with
    | error p => simp [h₁] at h
    | ok r =>
      obtain ⟨ts', d₁⟩ := r
      simp only [h₁] at h
      cases h₂ : scanTaskGroups n gs d₁ with
      | error p => simp [h₂] at h
      | ok r₂ =>
        obtain ⟨gs', d₂⟩ := r₂
        simp only [h₂, Except.ok.injEq, Prod.mk.injEq] at h
        rw [← h.2, ih gs' d₁ d₂ h₂ hno.2, scanTasks_no_match n g.Tasks ts' dirty d₁ h₁ hno.1]

theorem scanJob_no_match (n : BuildSucceededNotification) (job job' : Job) (dirty : Bool)
    (h : scanJob n job = Except.ok (job', dirty)) (hno : anyImageMatches n job = false) :
    dirty = false := by
  unfold scanJob at h
  cases h₁ : scanTaskGroups n job.TaskGroups false with
  | error p => simp [h₁] at h
  | ok r =>
    obtain ⟨gs', d⟩ := r
    simp only [h₁, Except.ok.injEq, Prod.mk.injEq] at h
    rw [← h.2]
    exact scanTaskGroups_no_match n job.TaskGroups gs' false d h₁ hno

theorem scanTasks_nonString (n : BuildSucceededNotification) (tasks : List Task) (dirty : Bool)
    (h : tasks.all imageIsString = false) : ∃ p, scanTasks n tasks dirty = Except.error p := by
  induction tasks generalizing dirty with
  | nil => simp at h
  | cons t ts ih =>
    simp only [scanTasks]
    cases h₁ : scanTask n t dirty with
    | error p => exact ⟨p, rfl⟩
    | ok r =>
      obtain ⟨t', d₁⟩ := r
      have hts : ts.all imageIsString = false := by
        simp only [List.all_cons, Bool.and_eq_false_iff] at h
        rcases h with h | h
        · exfalso
          unfold imageIsString at h
          unfold scanTask at h₁
          cases hg : mapGet t.Config "image" with
          | none => simp [hg] at h
          | some v =>
            cases v with
            | nonString j => simp [hg] at h₁
            | str s => simp [hg] at h
        · exact h
      obtain ⟨p, hp⟩ := ih d₁ hts
      exact ⟨p, by simp [hp]⟩

theorem scanTaskGroups_nonString (n : BuildSucceededNotification) (groups : List TaskGroup)
    (dirty : Bool) (h : (groups.all fun g => g.Tasks.all imageIsString) = false) :
    ∃ p, scanTaskGroups n groups dirty = Except.error p := by
  induction groups generalizing dirty with
  | nil => simp at h
  | cons g gs ih =>
    simp only [scanTaskGroups]
    cases h₁ : scanTasks n g.Tasks dirty with
    | error p => exact ⟨p, rfl⟩
    | ok r =>
      obtain ⟨ts', d₁⟩ := r
      have hgs : (gs.all fun g => g.Tasks.all imageIsString) = false := by
        simp only [List.all_cons, Bool.and_eq_false_iff] at h
        rcases h with h | h
        · obtain ⟨p, hp⟩ := scanTasks_nonString n g.Tasks dirty h
          rw [hp] at h₁
          cases h₁
        · exact h
      obtain ⟨p, hp⟩ := ih d₁ hgs
      exact ⟨p, by simp [hp]⟩

theorem scanJob_nonString (n : BuildSucceededNotification) (job : Job)
    (h : allImagesStrings job = false) : ∃ p, scanJob n job = Except.error p := by
  obtain ⟨p, hp⟩ := scanTaskGroups_nonString n job.TaskGroups false h
  exact ⟨p, by simp [scanJob, hp]⟩

/-! ## One iteration of the job loop -/

theorem processJob_not_service (api : NomadAPI) (n : BuildSucceededNotification)
    (stub : JobListStub) (h : stub.Type_ ≠ JobTypeService) :
    processJob api n stub = { calls := [], panic := none } := by
  simp [processJob, h]

theorem processJob_info_error (api : NomadAPI) (n : BuildSucceededNotification)
    (stub : JobListStub) (e : String) (hs : stub.Type_ = JobTypeService)
    (hi : api.Info stub.ID = Except.error e) :
    processJob api n stub = { calls := [Call.Info stub.ID], panic := none } := by
  simp [processJob, hs, hi]

theorem processJob_scan_panic (api : NomadAPI) (n : BuildSucceededNotification)
    (stub : JobListStub) (job : Job) (p : Panic) (hs : stub.Type_ = JobTypeService)
    (hi : api.Info stub.ID = Except.ok job) (hscan : scanJob n job = Except.error p) :
    processJob api n stub = { calls := [Call.Info stub.ID], panic := some p } := by
  simp [processJob, hs, hi, hscan]

theorem processJob_clean (api : NomadAPI) (n : BuildSucceededNotification)
    (stub : JobListStub) (job job' : Job) (hs : stub.Type_ = JobTypeService)
    (hi : api.Info stub.ID = Except.ok job) (hscan : scanJob n job = Except.ok (job', false)) :
    processJob api n stub = { calls := [Call.Info stub.ID], panic := none } := by
  simp [processJob, hs, hi, hscan]

theorem processJob_dirty_plan_error (api : NomadAPI) (n : BuildSucceededNotification)
    (stub : JobListStub) (job job' : Job) (e : String) (hs : stub.Type_ = JobTypeService)
    (hi : api.Info stub.ID = Except.ok job) (hscan : scanJob n job = Except.ok (job', true))
    (hp : api.Plan job' = Except.error e) :
    processJob api n stub
      = { calls := [Call.Info stub.ID, Call.Plan job'], panic := none } := by
  simp [processJob, hs, hi, hscan, hp]

theorem processJob_dirty_plan_ok (api : NomadAPI) (n : BuildSucceededNotification)
    (stub : JobListStub) (job job' : Job) (hs : stub.Type_ = JobTypeService)
    (hi : api.Info stub.ID = Except.ok job) (hscan : scanJob n job = Except.ok (job', true))
    (hp : api.Plan job' = Except.ok ()) :
    processJob api n stub
      = { calls := [Call.Info stub.ID, Call.Plan job', Call.Register job'], panic := none } := by
  simp only [processJob, hs, hi, hscan, hp, ne_eq, not_true_eq_false, if_false, if_true]
  cases api.Register job' <;> rfl

theorem processJob_panic_none (api : NomadAPI) (n : BuildSucceededNotification)
    (stub : JobListStub) (hs : stub.Type_ = JobTypeService) (job : Job)
    (hi : api.Info stub.ID = Except.ok job) (tag : String) (rest : List String)
    (htags : n.DockerTags = tag :: rest) (hstr : allImagesStrings job = true) :
    (processJob api n stub).panic = none := by
  have hscan := scanJob_eq n tag rest htags job hstr
  cases hd : anyImageMatches n job with
  | false =>
    rw [hd] at hscan
    rw [processJob_clean api n stub job _ hs hi hscan]
  | true =>
    rw [hd] at hscan
    cases hp : api.Plan (rewriteJobSpec n tag job) with
    | error e => rw [processJob_dirty_plan_error api n stub job _ e hs hi hscan hp]
    | ok u => rw [processJob_dirty_plan_ok api n stub job _ hs hi hscan hp]

theorem processJob_register_le_one (api : NomadAPI) (n : BuildSucceededNotification)
    (stub : JobListStub) :
    (processJob api n stub).planCalls ≤ 1 ∧ (processJob api n stub).registerCalls ≤ 1 := by
  unfold processJob
  split
  · simp [Run.planCalls, Run.registerCalls]
  · split
    · simp [Run.planCalls, Run.registerCalls, Call.isPlan, Call.isRegister]
    · split
      · simp [Run.planCalls, Run.registerCalls, Call.isPlan, Call.isRegister]
      · split
        · split
          · simp [Run.planCalls, Run.registerCalls, Call.isPlan, Call.isRegister]
          · split <;> simp [Run.planCalls, Run.registerCalls, Call.isPlan, Call.isRegister]
        · simp [Run.planCalls, Run.registerCalls, Call.isPlan, Call.isRegister]

/-! ## The job loop -/

theorem processJobs_cons_panic (api : NomadAPI) (n : BuildSucceededNotification)
    (stub : JobListStub) (rest : List JobListStub) (p : Panic)
    (h : (processJob api n stub).panic = some p) :
    processJobs api n (stub :: rest) = processJob api n stub := by
  rcases hr : processJob api n stub with ⟨c, _ | q⟩
  · rw [hr] at h
    cases h
  · simp [processJobs, hr]

theorem processJobs_cons_ok (api : NomadAPI) (n : BuildSucceededNotification)
    (stub : JobListStub) (rest : List JobListStub)
    (h : (processJob api n stub).panic = none) :
    processJobs api n (stub :: rest)
      = { calls := (processJob api n stub).calls ++ (processJobs api n rest).calls,
          panic := (processJobs api n rest).panic } := by
  rcases hr : processJob api n stub with ⟨c, _ | q⟩
  · simp [processJobs, hr]
  · rw [hr] at h
    cases h

theorem processJobs_append_panic (api : NomadAPI) (n : BuildSucceededNotification)
    (l₁ l₂ : List JobListStub) (p : Panic) (h : (processJobs api n l₁).panic = some p) :
    processJobs api n (l₁ ++ l₂) = processJobs api n l₁ := by
  induction l₁ with
  | nil => simp [processJobs] at h
  | cons stub rest ih =>
    cases hj : (processJob api n stub).panic with
    | some q =>
      rw [List.cons_append, processJobs_cons_panic api n stub _ q hj,
        processJobs_cons_panic api n stub _ q hj]
    | none =>
      rw [processJobs_cons_ok api n stub _ hj] at h
      rw [List.cons_append, processJobs_cons_ok api n stub _ hj,
        processJobs_cons_ok api n stub _ hj, ih h]

theorem processJobs_append_ok (api : NomadAPI) (n : BuildSucceededNotification)
    (l₁ l₂ : List JobListStub) (h : (processJobs api n l₁).panic = none) :
    processJobs api n (l₁ ++ l₂)
      = { calls := (processJobs api n l₁).calls ++ (processJobs api n l₂).calls,
          panic := (processJobs api n l₂).panic } := by
  induction l₁ with
  | nil => simp [processJobs]
  | cons stub rest ih =>
    cases hj : (processJob api n stub).panic with
    | some q =>
      rw [processJobs_cons_panic api n stub _ q hj] at h
      rw [hj] at h
      cases h
    | none =>
      rw [processJobs_cons_ok api n stub _ hj] at h
      rw [List.cons_append, processJobs_cons_ok api n stub _ hj,
        processJobs_cons_ok api n stub _ hj, ih h]
      simp

theorem processJobs_panic_none (api : NomadAPI) (n : BuildSucceededNotification)
    (l : List JobListStub) (h : ∀ stub ∈ l, (processJob api n stub).panic = none) :
    (processJobs api n l).panic = none := by
  induction l with
  | nil => rfl
  | cons stub rest ih =>
    rw [processJobs_cons_ok api n stub _ (h stub (List.mem_cons_self _ _))]
    exact ih fun s hs => h s (List.mem_cons_of_mem _ hs)

theorem processJob_panic_none_of (api : NomadAPI) (n : BuildSucceededNotification)
    (stub : JobListStub) (tag : String) (rest : List String)
    (htags : n.DockerTags = tag :: rest) (hstr : fetchedImagesAreStrings api stub = true) :
    (processJob api n stub).panic = none := by
  by_cases hs : stub.Type_ = JobTypeService
  · cases hi : api.Info stub.ID with
    | error e => rw [processJob_info_error api n stub e hs hi]
    | ok job =>
      have hj : allImagesStrings job = true := by
        simpa [fetchedImagesAreStrings, hs, hi] using hstr
      exact processJob_panic_none api n stub hs job hi tag rest htags hj
  · rw [processJob_not_service api n stub hs]

theorem processJob_withListing (api : NomadAPI) (jobs : List JobListStub)
    (n : BuildSucceededNotification) (stub : JobListStub) :
    processJob (withListing api jobs) n stub = processJob api n stub := rfl

theorem processJobs_withListing (api : NomadAPI) (jobs : List JobListStub)
    (n : BuildSucceededNotification) (l : List JobListStub) :
    processJobs (withListing api jobs) n l = processJobs api n l := by
  induction l with
  | nil => rfl
  | cons stub rest ih => simp only [processJobs, processJob_withListing, ih]

theorem processBuildNotification_withListing (api : NomadAPI) (jobs : List JobListStub)
    (n : BuildSucceededNotification) :
    processBuildNotification (withListing api jobs) n
      = { calls := Call.List :: (processJobs api n jobs).calls,
          panic := (processJobs api n jobs).panic } := by
  simp [processBuildNotification, withListing, ← processJobs_withListing api jobs n jobs]

theorem processJobs_flatMap (api : NomadAPI) (n : BuildSucceededNotification)
    (l : List JobListStub) (h : ∀ stub ∈ l, (processJob api n stub).panic = none) :
    processJobs api n l
      = { calls := l.flatMap fun stub => (processJob api n stub).calls, panic := none } := by
  induction l with
  | nil => rfl
  | cons stub rest ih =>
    rw [processJobs_cons_ok api n stub _ (h stub (List.mem_cons_self _ _)),
      ih fun s hs => h s (List.mem_cons_of_mem _ hs)]
    simp

/-! ## The properties -/

/-- C1: for a notification with at least one tag and a job whose image values
are all strings, the scan succeeds and returns the job in which exactly the tasks
whose image has `DockerURL` as a prefix carry the image `DockerURL:firstTag` (every
other key of such a task, and every other task, being as before); the result is
the rewrite the specification describes, and `dirty` tells whether a task matched. -/
theorem C1_scan_rewrites_exactly_the_prefix_matches (n : BuildSucceededNotification)
    (job : Job) (tag : String) (rest : List String) (htags : n.DockerTags = tag :: rest)
    (hstr : allImagesStrings job = true) :
    ∃ job' dirty,
      scanJob n job = Except.ok (job', dirty) ∧
      JobRewritten n tag job job' ∧
      job' = rewriteJobSpec n tag job ∧
      (dirty = true ↔ ∃ g ∈ job.TaskGroups, ∃ t ∈ g.Tasks, imageMatches n t = true) :=
  ⟨rewriteJobSpec n tag job, anyImageMatches n job, scanJob_eq n tag rest htags job hstr,
    jobRewritten_rewriteJobSpec n tag job, rfl, anyImageMatches_iff n job⟩

/-- C1 on the scenario of the specification: `registry/app:v40` becomes
`registry/app:v42`, the image of another repository and the task without image
are left alone. -/
theorem C1_scan_rewrites_exactly_the_prefix_matches_witness :
    exampleNotification.DockerTags = "v42" :: ["v41"] ∧
    allImagesStrings exampleJob = true ∧
    scanJob exampleNotification exampleJob = Except.ok (exampleJobUpdated, true) ∧
    ∃ job' dirty,
      scanJob exampleNotification exampleJob = Except.ok (job', dirty) ∧
      JobRewritten exampleNotification "v42" exampleJob job' ∧
      job' = rewriteJobSpec exampleNotification "v42" exampleJob ∧
      (dirty = true ↔
        ∃ g ∈ exampleJob.TaskGroups, ∃ t ∈ g.Tasks,
          imageMatches exampleNotification t = true) :=
  ⟨rfl, by decide, by decide,
    C1_scan_rewrites_exactly_the_prefix_matches exampleNotification exampleJob "v42" ["v41"]
      rfl (by decide)⟩

/-- C10: for a notification with at least one tag and a job whose image values
are all strings, scanning the job the scan returned gives that same job again,
with the same value of `dirty`. -/
theorem C10_scan_is_idempotent (n : BuildSucceededNotification) (job : Job) (tag : String)
    (rest : List String) (htags : n.DockerTags = tag :: rest)
    (hstr : allImagesStrings job = true) :
    ∃ job' dirty,
      scanJob n job = Except.ok (job', dirty) ∧ scanJob n job' = Except.ok (job', dirty) := by
  refine ⟨rewriteJobSpec n tag job, anyImageMatches n job, scanJob_eq n tag rest htags job hstr, ?_⟩
  have h := scanJob_eq n tag rest htags (rewriteJobSpec n tag job)
    (allImagesStrings_rewriteJobSpec n tag job hstr)
  rw [rewriteJobSpec_idem, anyImageMatches_rewriteJobSpec] at h
  exact h

/-- C10 on the scenario of the specification: the updated job is scanned to
itself and is still dirty. -/
theorem C10_scan_is_idempotent_witness :
    exampleNotification.DockerTags = "v42" :: ["v41"] ∧
    allImagesStrings exampleJob = true ∧
    scanJob exampleNotification exampleJobUpdated = Except.ok (exampleJobUpdated, true) ∧
    ∃ job' dirty,
      scanJob exampleNotification exampleJob = Except.ok (job', dirty) ∧
      scanJob exampleNotification job' = Except.ok (job', dirty) :=
  ⟨rfl, by decide, by decide,
    C10_scan_is_idempotent exampleNotification exampleJob "v42" ["v41"] rfl (by decide)⟩

/-- C2, as the code has it: for a service entry whose definition is fetched, no
`Plan` and no `Register` request is sent when no task matches; exactly one `Plan`
request is sent when some task matches, provided the notification has a tag and
the job's image values are all strings; at most one `Register` request is sent in
every case. -/
theorem C2_plan_once_per_matching_job (api : NomadAPI) (n : BuildSucceededNotification)
    (stub : JobListStub) (job : Job) (hs : stub.Type_ = JobTypeService)
    (hi : api.Info stub.ID = Except.ok job) :
    (anyImageMatches n job = false →
      (processJob api n stub).planCalls = 0 ∧ (processJob api n stub).registerCalls = 0) ∧
    (anyImageMatches n job = true → n.DockerTags ≠ [] → allImagesStrings job = true →
      (processJob api n stub).planCalls = 1) ∧
    (processJob api n stub).registerCalls ≤ 1 := by
  refine ⟨?_, ?_, (processJob_register_le_one api n stub).2⟩
  · intro hno
    cases hscan : scanJob n job with
    | error p =>
      rw [processJob_scan_panic api n stub job p hs hi hscan]
      simp [Run.planCalls, Run.registerCalls, Call.isPlan, Call.isRegister]
    | ok r =>
      obtain ⟨job', dirty⟩ := r
      have hd := scanJob_no_match n job job' dirty hscan hno
      subst hd
      rw [processJob_clean api n stub job job' hs hi hscan]
      simp [Run.planCalls, Run.registerCalls, Call.isPlan, Call.isRegister]
  · intro hany htags hstr
    obtain ⟨tag, rest, htags⟩ := List.exists_cons_of_ne_nil htags
    have hscan := scanJob_eq n tag rest htags job hstr
    rw [hany] at hscan
    cases hp : api.Plan (rewriteJobSpec n tag job) with
    | error e =>
      rw [processJob_dirty_plan_error api n stub job _ e hs hi hscan hp]
      simp [Run.planCalls, Call.isPlan]
    | ok u =>
      rw [processJob_dirty_plan_ok api n stub job _ hs hi hscan hp]
      simp [Run.planCalls, Call.isPlan]

/-- C2 on the scenarios of the specification: no request beyond `Info` for the
job of another repository, one `Plan` for the job with a matching task. -/
theorem C2_plan_once_per_matching_job_witness :
    (anyImageMatches exampleNotification otherJob = false ∧
      (processJob exampleAPI exampleNotification ⟨"other", "service"⟩).planCalls = 0 ∧
      (processJob exampleAPI exampleNotification ⟨"other", "service"⟩).registerCalls = 0) ∧
    (anyImageMatches exampleNotification exampleJob = true ∧
      (processJob exampleAPI exampleNotification ⟨"web", "service"⟩).planCalls = 1) :=
  ⟨⟨by decide,
      (C2_plan_once_per_matching_job exampleAPI exampleNotification ⟨"other", "service"⟩
        otherJob rfl rfl).1 (by decide)⟩,
    ⟨by decide,
      (C2_plan_once_per_matching_job exampleAPI exampleNotification ⟨"web", "service"⟩
        exampleJob rfl rfl).2.1 (by decide) (by decide) (by decide)⟩⟩

/-- C2 as stated fails: a fetched service job with a matching task gets no `Plan`
request when the notification has no tag, and none when a later task of the job
has an image that is not a string; the worker panics in both runs. -/
theorem C2_matching_job_without_plan :
    (anyImageMatches noTagsNotification exampleJob = true ∧
      exampleAPI.Info "web" = Except.ok exampleJob ∧
      (processJob exampleAPI noTagsNotification ⟨"web", "service"⟩).planCalls = 0 ∧
      (processJob exampleAPI noTagsNotification ⟨"web", "service"⟩).panic
        = some Panic.indexOutOfRange) ∧
    (anyImageMatches exampleNotification brokenJob = true ∧
      exampleAPI.Info "broken" = Except.ok brokenJob ∧
      (processJob exampleAPI exampleNotification ⟨"broken", "service"⟩).planCalls = 0 ∧
      (processJob exampleAPI exampleNotification ⟨"broken", "service"⟩).panic
        = some Panic.typeAssertion) := by
  decide

/-- C3: for a job the scan left dirty, the requests of the iteration are `Info`,
then `Plan`, then `Register` when the plan succeeded, and `Info`, then `Plan` and
nothing else when it failed; so `Register` is sent if and only if `Plan` returned
without error, and after it. -/
theorem C3_register_iff_plan_succeeded (api : NomadAPI) (n : BuildSucceededNotification)
    (stub : JobListStub) (job job' : Job) (hs : stub.Type_ = JobTypeService)
    (hi : api.Info stub.ID = Except.ok job) (hscan : scanJob n job = Except.ok (job', true)) :
    ((∃ j, Call.Register j ∈ (processJob api n stub).calls) ↔ api.Plan job' = Except.ok ()) ∧
    (api.Plan job' = Except.ok () →
      (processJob api n stub).calls
        = [Call.Info stub.ID, Call.Plan job', Call.Register job']) ∧
    (api.Plan job' ≠ Except.ok () →
      (processJob api n stub).calls = [Call.Info stub.ID, Call.Plan job']) := by
  cases hp : api.Plan job' with
  | error e =>
    rw [processJob_dirty_plan_error api n stub job job' e hs hi hscan hp]
    simp
  | ok u =>
    rw [processJob_dirty_plan_ok api n stub job job' hs hi hscan hp]
    simp

/-- C3 on a Nomad that refuses every plan: the dirty job is planned and not
registered. -/
theorem C3_register_iff_plan_succeeded_witness :
    scanJob exampleNotification exampleJob = Except.ok (exampleJobUpdated, true) ∧
    planFailsAPI.Plan exampleJobUpdated ≠ Except.ok () ∧
    (processJob planFailsAPI exampleNotification ⟨"web", "service"⟩).calls
      = [Call.Info "web", Call.Plan exampleJobUpdated] :=
  ⟨by decide, by decide,
    (C3_register_iff_plan_succeeded planFailsAPI exampleNotification ⟨"web", "service"⟩
      exampleJob exampleJobUpdated rfl rfl (by decide)).2.2 (by decide)⟩

/-- C4: when the job listing fails, the worker returns normally and its only
request is the `List` request, whatever the notification. -/
theorem C4_list_failure_drops_notification (api : NomadAPI) (n : BuildSucceededNotification)
    (e : String) (h : api.List = Except.error e) :
    processBuildNotification api n = { calls := [Call.List], panic := none } := by
  simp [processBuildNotification, h]

/-- C4 on the zero-valued notification, whose tag list is empty. -/
theorem C4_list_failure_drops_notification_witness :
    listFailsAPI.List = Except.error "connection refused" ∧
    zeroNotification.DockerTags = [] ∧
    processBuildNotification listFailsAPI zeroNotification
      = { calls := [Call.List], panic := none } :=
  ⟨rfl, rfl,
    C4_list_failure_drops_notification listFailsAPI zeroNotification "connection refused" rfl⟩

/-- C5: with a tag in the notification and only string images in the fetched
definitions, a cycle returns normally and its requests are the `List` request
followed, entry by entry, by the requests of that entry's own iteration; this holds
for every response of Nomad to the requests of an entry `j`, and the cycle over the
listing without `j` sends, for every other entry, the same requests. -/
theorem C5_jobs_are_processed_independently (api : NomadAPI) (n : BuildSucceededNotification)
    (tag : String) (rest : List String) (l₁ l₂ : List JobListStub) (j : JobListStub)
    (htags : n.DockerTags = tag :: rest)
    (hstr : (l₁ ++ j :: l₂).all (fetchedImagesAreStrings api) = true) :
    processBuildNotification (withListing api (l₁ ++ j :: l₂)) n
      = { calls := Call.List ::
            ((l₁.flatMap fun stub => (processJob api n stub).calls)
              ++ (processJob api n j).calls
              ++ (l₂.flatMap fun stub => (processJob api n stub).calls)),
          panic := none } ∧
    processBuildNotification (withListing api (l₁ ++ l₂)) n
      = { calls := Call.List ::
            ((l₁.flatMap fun stub => (processJob api n stub).calls)
              ++ (l₂.flatMap fun stub => (processJob api n stub).calls)),
          panic := none } := by
  have hall : ∀ stub ∈ l₁ ++ j :: l₂, (processJob api n stub).panic = none := by
    intro stub hmem
    exact processJob_panic_none_of api n stub tag rest htags
      ((List.all_eq_true.mp hstr) stub hmem)
  have hall' : ∀ stub ∈ l₁ ++ l₂, (processJob api n stub).panic = none := by
    intro stub hmem
    apply hall
    rcases List.mem_append.mp hmem with h | h
    · exact List.mem_append_left _ h
    · exact List.mem_append_right _ (List.mem_cons_of_mem _ h)
  constructor
  · rw [processBuildNotification_withListing, processJobs_flatMap api n _ hall]
    simp
  · rw [processBuildNotification_withListing, processJobs_flatMap api n _ hall']
    simp

/-- C5 on a listing whose middle entry fails at `Info`: the jobs before and after
it are planned and registered as they are without it. -/
theorem C5_jobs_are_processed_independently_witness :
    exampleNotification.DockerTags = "v42" :: ["v41"] ∧
    exampleAPI.Info "gone" = Except.error "job not found" ∧
    processBuildNotification
        (withListing exampleAPI ([⟨"web", "service"⟩] ++ ⟨"gone", "service"⟩ ::
          [⟨"other", "service"⟩])) exampleNotification
      = { calls := Call.List ::
            (([⟨"web", "service"⟩] : List JobListStub).flatMap
                (fun stub => (processJob exampleAPI exampleNotification stub).calls)
              ++ (processJob exampleAPI exampleNotification ⟨"gone", "service"⟩).calls
              ++ ([⟨"other", "service"⟩] : List JobListStub).flatMap
                (fun stub => (processJob exampleAPI exampleNotification stub).calls)),
          panic := none } ∧
    processBuildNotification
        (withListing exampleAPI ([⟨"web", "service"⟩] ++ [⟨"other", "service"⟩]))
        exampleNotification
      = { calls := Call.List ::
            (([⟨"web", "service"⟩] : List JobListStub).flatMap
                (fun stub => (processJob exampleAPI exampleNotification stub).calls)
              ++ ([⟨"other", "service"⟩] : List JobListStub).flatMap
                (fun stub => (processJob exampleAPI exampleNotification stub).calls)),
          panic := none } :=
  ⟨rfl, rfl,
    C5_jobs_are_processed_independently exampleAPI exampleNotification "v42" ["v41"]
      [⟨"web", "service"⟩] [⟨"other", "service"⟩] ⟨"gone", "service"⟩ rfl (by decide)⟩

/-- C6: a listing entry whose type is not `service` causes no request at all
(so its definition is never fetched, and nothing of it can be written), and the
whole cycle is the cycle over the listing without that entry. -/
theorem C6_non_service_jobs_are_ignored (api : NomadAPI) (n : BuildSucceededNotification)
    (l₁ l₂ : List JobListStub) (j : JobListStub) (h : j.Type_ ≠ JobTypeService) :
    processJob api n j = { calls := [], panic := none } ∧
    processBuildNotification (withListing api (l₁ ++ j :: l₂)) n
      = processBuildNotification (withListing api (l₁ ++ l₂)) n := by
  have hj := processJob_not_service api n j h
  refine ⟨hj, ?_⟩
  have hcons : processJobs api n (j :: l₂) = processJobs api n l₂ := by
    rw [processJobs_cons_ok api n j l₂ (by rw [hj]), hj]
    simp
  rw [processBuildNotification_withListing, processBuildNotification_withListing]
  cases hp : (processJobs api n l₁).panic with
  | some p =>
    rw [processJobs_append_panic api n l₁ _ p hp, processJobs_append_panic api n l₁ _ p hp]
  | none =>
    rw [processJobs_append_ok api n l₁ _ hp, processJobs_append_ok api n l₁ _ hp, hcons]

/-- C6 on a batch job whose definition has a matching image: no request is sent
for it. -/
theorem C6_non_service_jobs_are_ignored_witness :
    (⟨"cron", "batch"⟩ : JobListStub).Type_ ≠ JobTypeService ∧
    exampleAPI.Info "cron" = Except.ok exampleJob ∧
    anyImageMatches exampleNotification exampleJob = true ∧
    processJob exampleAPI exampleNotification ⟨"cron", "batch"⟩
      = { calls := [], panic := none } ∧
    processBuildNotification
        (withListing exampleAPI ([⟨"web", "service"⟩] ++ ⟨"cron", "batch"⟩ ::
          [⟨"other", "service"⟩])) exampleNotification
      = processBuildNotification
          (withListing exampleAPI ([⟨"web", "service"⟩] ++ [⟨"other", "service"⟩]))
          exampleNotification :=
  ⟨by decide, rfl, by decide,
    C6_non_service_jobs_are_ignored exampleAPI exampleNotification [⟨"web", "service"⟩]
      [⟨"other", "service"⟩] ⟨"cron", "batch"⟩ (by decide)⟩

/-- C7, as the code has it: the handler is blocked, with nothing answered and
nothing enqueued, exactly when the method is POST and the buffer of the channel
holds five notifications; whenever it returns, its status and what it enqueues are
fixed by the request method and never by the body or by the decoder's verdict: 200
and nothing for GET, 200 and the one decoded notification for POST, 405 and nothing
for any other method; and two requests with the same method, on the same buffer,
are either both blocked or answered with the same status and the same number of
notifications in the buffer. -/
theorem C7_handler_depends_on_method_and_queue_room
    (decode : String → BuildSucceededNotification × Bool)
    (ch : List BuildSucceededNotification) (r : Request) :
    (handler decode ch r = none ↔ r.Method = MethodPost ∧ chCapacity ≤ ch.length) ∧
    (∀ h, handler decode ch r = some h →
      h.status
          = (if r.Method = MethodGet then 200 else if r.Method = MethodPost then 200 else 405) ∧
      h.ch = ch ++ (if r.Method = MethodPost then [(decode r.Body).1] else [])) ∧
    (∀ (decode' : String → BuildSucceededNotification × Bool) (r' : Request),
      r'.Method = r.Method →
        (handler decode' ch r').map Handled.status = (handler decode ch r).map Handled.status ∧
        (handler decode' ch r').map (fun h => h.ch.length)
          = (handler decode ch r).map (fun h => h.ch.length)) := by
  have hgp : MethodGet ≠ MethodPost := by decide
  by_cases hg : r.Method = MethodGet
  · refine ⟨?_, ?_, ?_⟩
    · simp [handler, hg, hgp]
    · intro h hh
      simp only [handler, hg, if_true, Option.some.injEq] at hh
      subst hh
      simp [hg, hgp, Handled.status]
    · intro decode' r' hr
      simp [handler, hr, hg]
  · by_cases hp : r.Method = MethodPost
    · by_cases hroom : ch.length < chCapacity
      · refine ⟨?_, ?_, ?_⟩
        · simp [handler, hp, hgp.symm, chSend, hroom]
        · intro h hh
          simp only [handler, hp, hgp.symm, if_false, ne_eq, not_true_eq_false, chSend, hroom,
            if_true, Option.some.injEq] at hh
          subst hh
          simp [hp, hgp.symm, Handled.status, StatusOK]
        · intro decode' r' hr
          simp [handler, hr, hp, hgp.symm, chSend, hroom, Handled.status]
      · refine ⟨?_, ?_, ?_⟩
        · simp only [handler, hp, hgp.symm, if_false, ne_eq, not_true_eq_false, chSend, hroom,
            true_and, true_iff]
          exact Nat.le_of_not_lt hroom
        · intro h hh
          simp [handler, hp, hgp.symm, chSend, hroom] at hh
        · intro decode' r' hr
          simp [handler, hr, hp, hgp.symm, chSend, hroom]
    · refine ⟨?_, ?_, ?_⟩
      · simp [handler, hg, hp]
      · intro h hh
        simp only [handler, hg, hp, if_false, ne_eq, not_false_eq_true, if_true,
          Option.some.injEq] at hh
        subst hh
        simp [hg, hp, Handled.status, StatusMethodNotAllowed]
      · intro decode' r' hr
        simp [handler, hr, hg, hp]

/-- C7 on a POST whose body does not decode, with room in the buffer: the answer
is 200 and the zero-valued notification is enqueued behind the waiting one. -/
theorem C7_handler_depends_on_method_and_queue_room_witness :
    handler failingDecode [exampleNotification] ⟨"POST", "not json"⟩
      = some
          { wroteHeader := none,
            headers :=
              [("Content-Type", "application/json"), ("Access-Control-Allow-Origin", "*")],
            ch := [exampleNotification, zeroNotification] } ∧
    (⟨"POST", "\x7b\x7d"⟩ : Request).Method = (⟨"POST", "not json"⟩ : Request).Method ∧
    (({ wroteHeader := none,
        headers :=
          [("Content-Type", "application/json"), ("Access-Control-Allow-Origin", "*")],
        ch := [exampleNotification, zeroNotification] } : Handled).status = 200 ∧
      [exampleNotification, zeroNotification]
        = [exampleNotification] ++ [(failingDecode "not json").1]) ∧
    ((handler succeedingDecode [exampleNotification] ⟨"POST", "\x7b\x7d"⟩).map Handled.status
        = (handler failingDecode [exampleNotification] ⟨"POST", "not json"⟩).map Handled.status ∧
      (handler succeedingDecode [exampleNotification] ⟨"POST", "\x7b\x7d"⟩).map
          (fun h => h.ch.length)
        = (handler failingDecode [exampleNotification] ⟨"POST", "not json"⟩).map
          (fun h => h.ch.length)) :=
  ⟨by decide, rfl,
    (C7_handler_depends_on_method_and_queue_room failingDecode [exampleNotification]
      ⟨"POST", "not json"⟩).2.1 _ (by decide),
    (C7_handler_depends_on_method_and_queue_room failingDecode [exampleNotification]
      ⟨"POST", "not json"⟩).2.2 succeedingDecode ⟨"POST", "\x7b\x7d"⟩ rfl⟩

/-- C7 as stated fails: a POST that arrives while five notifications wait is
blocked in the send, with no status answered and nothing enqueued, although a POST
with the same body on an empty buffer is answered 200 with one notification
enqueued; the outcome is not fixed by the method alone. -/
theorem C7_post_on_full_queue_is_blocked :
    fullBuffer.length = 5 ∧
    handler succeedingDecode fullBuffer ⟨"POST", "\x7b\x7d"⟩ = none ∧
    (handler succeedingDecode [] ⟨"POST", "\x7b\x7d"⟩).map Handled.status = some 200 ∧
    (handler succeedingDecode [] ⟨"POST", "\x7b\x7d"⟩).map (fun h => h.ch)
      = some [exampleNotification] := by
  decide

/-- C8 fails on the code: with the zero-valued notification the empty `DockerURL`
is a prefix of every string image, so the first service job with an image makes the
worker evaluate `DockerTags[0]` on the empty list and panic. -/
theorem C8_zero_notification_panics :
    processBuildNotification (withListing exampleAPI [⟨"web", "service"⟩]) zeroNotification
      = { calls := [Call.List, Call.Info "web"], panic := some Panic.indexOutOfRange } := by
  decide

/-- C9: when the definition fetched for a service entry has an image that is
not a string, the scan of that job panics and the cycle does not return normally;
if the entries before it were processed without panic, the requests of the cycle
end with the `Info` request of that entry: no `Plan` or `Register` request is sent
for it or for a later entry. -/
theorem C9_non_string_image_panics (api : NomadAPI) (n : BuildSucceededNotification)
    (l₁ l₂ : List JobListStub) (j : JobListStub) (job : Job)
    (hs : j.Type_ = JobTypeService) (hi : api.Info j.ID = Except.ok job)
    (hbad : allImagesStrings job = false) :
    (∃ p, scanJob n job = Except.error p) ∧
    (processBuildNotification (withListing api (l₁ ++ j :: l₂)) n).panic ≠ none ∧
    ((processJobs api n l₁).panic = none →
      ∃ p, processBuildNotification (withListing api (l₁ ++ j :: l₂)) n
        = { calls := Call.List :: ((processJobs api n l₁).calls ++ [Call.Info j.ID]),
            panic := some p }) := by
  obtain ⟨p, hscan⟩ := scanJob_nonString n job hbad
  have hj := processJob_scan_panic api n j job p hs hi hscan
  have hcons : processJobs api n (j :: l₂)
      = { calls := [Call.Info j.ID], panic := some p } := by
    rw [processJobs_cons_panic api n j l₂ p (by rw [hj]), hj]
  refine ⟨⟨p, hscan⟩, ?_, ?_⟩
  · rw [processBuildNotification_withListing]
    cases hp : (processJobs api n l₁).panic with
    | some q =>
      rw [processJobs_append_panic api n l₁ _ q hp, hp]
      simp
    | none =>
      rw [processJobs_append_ok api n l₁ _ hp, hcons]
      simp
  · intro hp
    refine ⟨p, ?_⟩
    rw [processBuildNotification_withListing, processJobs_append_ok api n l₁ _ hp, hcons]

/-- C9 on a job whose first task matches and whose second task has the image
`7`: the cycle panics after the `Info` request of that job, and the job listed
after it is not looked at. -/
theorem C9_non_string_image_panics_witness :
    exampleAPI.Info "broken" = Except.ok brokenJob ∧
    allImagesStrings brokenJob = false ∧
    (processJobs exampleAPI exampleNotification [⟨"other", "service"⟩]).panic = none ∧
    processBuildNotification
        (withListing exampleAPI ([⟨"other", "service"⟩] ++ ⟨"broken", "service"⟩ ::
          [⟨"web", "service"⟩])) exampleNotification
      = { calls := [Call.List, Call.Info "other", Call.Info "broken"],
          panic := some Panic.typeAssertion } ∧
    ((∃ p, scanJob exampleNotification brokenJob = Except.error p) ∧
      (processBuildNotification
        (withListing exampleAPI ([⟨"other", "service"⟩] ++ ⟨"broken", "service"⟩ ::
          [⟨"web", "service"⟩])) exampleNotification).panic ≠ none ∧
      ((processJobs exampleAPI exampleNotification [⟨"other", "service"⟩]).panic = none →
        ∃ p, processBuildNotification
            (withListing exampleAPI ([⟨"other", "service"⟩] ++ ⟨"broken", "service"⟩ ::
              [⟨"web", "service"⟩])) exampleNotification
          = { calls := Call.List ::
                ((processJobs exampleAPI exampleNotification [⟨"other", "service"⟩]).calls
                  ++ [Call.Info (⟨"broken", "service"⟩ : JobListStub).ID]),
              panic := some p })) :=
  ⟨rfl, by decide, by decide, by decide,
    C9_non_string_image_panics exampleAPI exampleNotification [⟨"other", "service"⟩]
      [⟨"web", "service"⟩] ⟨"broken", "service"⟩ brokenJob rfl rfl (by decide)⟩

end NomadQuayDeployer
